import Mathlib

/-!
Verification of the VSOP87 series loader/evaluator of `precompute.py`
(repository `erla2996/SolarSystem`).

The core of the repository is the function `getPlanetPosition`, which scans
the lines of a per-planet VSOP87 coefficient file, accumulates periodic
terms into a 3 × 6 grid of degree-bucket sums and finally evaluates a
polynomial in the normalized time `T`.

Shallow embedding conventions:
* Python floats are modelled as exact rationals (`ℚ`); `math.cos` is an
  abstract parameter `cos : ℚ → ℚ` threaded through the definitions.
* A Python run either returns a value or aborts with an uncaught
  exception; this is modelled with `Except PyError`.  `PyError.indexError`
  stands for Python's `IndexError` (sequence index out of range) and
  `PyError.valueError` for `ValueError` (failed `int()`/`float()`
  conversion).
* Python list indexing supports negative indices (counting from the end);
  `pyIdx`/`pyGet`/`pySet` reproduce that behaviour.
* The contents of the input file (the result of `readlines()`, i.e. lines
  that still carry their trailing newline) are an external input and are
  passed to the embedded functions as a `List String`.
-/

/-- Python exception kinds that the embedded code can raise. -/
inductive PyError : Type where
  | indexError : PyError
  | valueError : PyError
deriving DecidableEq, Repr

/-- Python list index resolution: a valid non-negative index is used as is,
a negative index `i` with `-n ≤ i` counts from the end, anything else is an
`IndexError`. -/
def pyIdx (n : Nat) (i : ℤ) : Option Nat :=
  if 0 ≤ i ∧ i < (n : ℤ) then some i.toNat
  else if -(n : ℤ) ≤ i ∧ i < 0 then some ((n : ℤ) + i).toNat
  else none

/-- Python `l[i]` for a list. -/
def pyGet {α : Type} (l : List α) (i : ℤ) : Option α :=
  (pyIdx l.length i).bind fun k => l.get? k

/-- Python `l[i] = a` for a list. -/
def pySet {α : Type} (l : List α) (i : ℤ) (a : α) : Option (List α) :=
  (pyIdx l.length i).map fun k => l.set k a

/-- The whitespace characters recognised by Python's `str.split()` on
ASCII input. -/
def pyIsSpace (c : Char) : Bool :=
  c == ' ' || c == '\t' || c == '\n' || c == '\r' || c == '\x0b' || c == '\x0c'

/-- Worker for `pySplit`: scan the characters, collecting the current
field in reverse in `acc`. -/
def pySplitAux : List Char → List Char → List String
  | [], acc => if acc.isEmpty then [] else [String.mk acc.reverse]
  | c :: rest, acc =>
    if pyIsSpace c then
      if acc.isEmpty then pySplitAux rest []
      else String.mk acc.reverse :: pySplitAux rest []
    else pySplitAux rest (c :: acc)

/-- Python `line.split()`: split on runs of whitespace, discarding empty
fields. -/
def pySplit (s : String) : List String := pySplitAux s.data []

/-- Numeric value of a decimal digit character. -/
def digitVal (c : Char) : Nat := c.toNat - '0'.toNat

/-- Value of a list of decimal digit characters. -/
def digitsToNat (ds : List Char) : Nat :=
  ds.foldl (fun a c => 10 * a + digitVal c) 0

/-- Python `int(s)` for a single-character string, as used on the header
digits: succeeds exactly on a decimal digit. -/
def parseIntChar (c : Char) : Option ℤ :=
  if c.isDigit then some (digitVal c) else none

/-- The syntactic pieces of a float literal: sign, mantissa digits read as
one integer, number of fractional digits, exponent sign and digits. -/
structure FloatParts : Type where
  neg : Bool
  mantissa : Nat
  fracLen : Nat
  expNeg : Bool
  exponent : Nat
deriving DecidableEq, Repr

/-- Mantissa of a float literal: digits with an optional fractional part,
at least one digit in total.  Returns the digits read as one integer, the
number of fractional digits and the unconsumed rest. -/
def parseMantissa (cs : List Char) : Option (Nat × Nat × List Char) :=
  let ip := cs.takeWhile Char.isDigit
  let rest := cs.dropWhile Char.isDigit
  match rest with
  | '.' :: rest2 =>
    let fp := rest2.takeWhile Char.isDigit
    let rest3 := rest2.dropWhile Char.isDigit
    if ip.isEmpty && fp.isEmpty then none
    else some (digitsToNat (ip ++ fp), fp.length, rest3)
  | _ => if ip.isEmpty then none else some (digitsToNat ip, 0, rest)

/-- Exponent part of a float literal: empty, or `e`/`E` followed by an
optional sign and a non-empty digit string consuming the whole rest. -/
def parseExponent (cs : List Char) : Option (Bool × Nat) :=
  match cs with
  | [] => some (false, 0)
  | e :: rest =>
    if e == 'e' || e == 'E' then
      let signed : Bool × List Char :=
        match rest with
        | '+' :: r => (false, r)
        | '-' :: r => (true, r)
        | r => (false, r)
      let ds := signed.2.takeWhile Char.isDigit
      if ds.isEmpty || !(signed.2.dropWhile Char.isDigit).isEmpty then none
      else some (signed.1, digitsToNat ds)
    else none

/-- Decompose a float literal (after whitespace stripping) into its
syntactic parts: optional sign, mantissa, optional exponent. -/
def parseFloatParts (cs : List Char) : Option FloatParts :=
  let signed : Bool × List Char :=
    match cs with
    | '+' :: rest => (false, rest)
    | '-' :: rest => (true, rest)
    | rest => (false, rest)
  match parseMantissa signed.2 with
  | none => none
  | some mkr =>
    match parseExponent mkr.2.2 with
    | none => none
    | some se => some ⟨signed.1, mkr.1, mkr.2.1, se.1, se.2⟩

/-- The rational value denoted by the parts of a float literal:
`± mantissa / 10^fracLen · 10^(±exponent)`. -/
def ratOfParts (p : FloatParts) : ℚ :=
  let base : ℚ := (p.mantissa : ℚ) / (10 : ℚ) ^ p.fracLen
  let scaled : ℚ :=
    if p.expNeg then base / (10 : ℚ) ^ p.exponent
    else base * (10 : ℚ) ^ p.exponent
  if p.neg then -scaled else scaled

/-- Strip whitespace from both ends of a character list, as Python
`float()` does before parsing. -/
def stripWs (cs : List Char) : List Char :=
  ((cs.dropWhile pyIsSpace).reverse.dropWhile pyIsSpace).reverse

/-- Python `float(s)` on the decimal/scientific text forms occurring in
VSOP87 files: optional surrounding whitespace, optional sign, mantissa
with optional fraction, optional exponent.  (The `inf`/`nan` text forms
have no counterpart in the exact-rational model and do not occur in the
series files.) -/
def parseFloat (s : String) : Option ℚ :=
  (parseFloatParts (stripWs s.data)).map ratOfParts

/-- `extractCoefficients(line)`: `line.split()[-3:]` — the last three
whitespace-delimited tokens (fewer if the line has fewer tokens; Python
slicing never fails). -/
def extractCoefficients (line : String) : List String :=
  let toks := pySplit line
  toks.drop (toks.length - 3)

/-- `computeTerm(line, T)`:
`float(c[0]) * math.cos(float(c[1]) + float(c[2]) * T)` with
`c = extractCoefficients(line)`, including Python's evaluation order of
the index lookups (`IndexError`) and conversions (`ValueError`). -/
def computeTerm (cos : ℚ → ℚ) (line : String) (T : ℚ) : Except PyError ℚ :=
  let c := extractCoefficients line
  match c.get? 0 with
  | none => .error .indexError
  | some s0 =>
    match parseFloat s0 with
    | none => .error .valueError
    | some a =>
      match c.get? 1 with
      | none => .error .indexError
      | some s1 =>
        match parseFloat s1 with
        | none => .error .valueError
        | some b =>
          match c.get? 2 with
          | none => .error .indexError
          | some s2 =>
            match parseFloat s2 with
            | none => .error .valueError
            | some f => .ok (a * cos (b + f * T))

/-- The loop state of `getPlanetPosition`: the 3 × 6 grid `sums` of
degree-bucket sums and the two indices `currentVar`, `currentTerm`
(integers, since the header arithmetic can make `currentVar` negative). -/
structure LoadState : Type where
  sums : List (List ℚ)
  currentVar : ℤ
  currentTerm : ℤ
deriving DecidableEq, Repr

/-- The initial loop state: all bucket sums zero, `currentVar = 0`,
`currentTerm = 0`. -/
def initState : LoadState :=
  { sums := [[0, 0, 0, 0, 0, 0], [0, 0, 0, 0, 0, 0], [0, 0, 0, 0, 0, 0]],
    currentVar := 0, currentTerm := 0 }

/-- The header branch of the loop body:
`sublines = line.split(); currentVar = int(sublines[5][0]) - 1;
currentTerm = int(sublines[7][4])`, with Python's error behaviour for the
index lookups and `int()` conversions. -/
def headerStep (st : LoadState) (line : String) : Except PyError LoadState :=
  let sublines := pySplit line
  match sublines.get? 5 with
  | none => .error .indexError
  | some t5 =>
    match t5.data.get? 0 with
    | none => .error .indexError
    | some c5 =>
      match parseIntChar c5 with
      | none => .error .valueError
      | some v =>
        match sublines.get? 7 with
        | none => .error .indexError
        | some t7 =>
          match t7.data.get? 4 with
          | none => .error .indexError
          | some c7 =>
            match parseIntChar c7 with
            | none => .error .valueError
            | some d =>
              .ok { st with currentVar := v - 1, currentTerm := d }

/-- The data branch of the loop body:
`sums[currentVar][currentTerm] += computeTerm(line, T)`.  CPython
evaluates the subscripts (raising `IndexError` on an out-of-range bucket)
before evaluating the right-hand side. -/
def dataStep (cos : ℚ → ℚ) (T : ℚ) (st : LoadState) (line : String) :
    Except PyError LoadState :=
  match pyGet st.sums st.currentVar with
  | none => .error .indexError
  | some row =>
    match pyGet row st.currentTerm with
    | none => .error .indexError
    | some old =>
      match computeTerm cos line T with
      | .error e => .error e
      | .ok q =>
        match pySet row st.currentTerm (old + q) with
        | none => .error .indexError
        | some row2 =>
          match pySet st.sums st.currentVar row2 with
          | none => .error .indexError
          | some sums2 => .ok { st with sums := sums2 }

/-- One iteration of the loop of `getPlanetPosition`:
skip a zero-length line, otherwise classify on `line[1]` (an
`IndexError` if the line has a single character): `'V'` selects the
header branch, anything else the data branch. -/
def processLine (cos : ℚ → ℚ) (T : ℚ) (st : LoadState) (line : String) :
    Except PyError LoadState :=
  if line.length = 0 then .ok st
  else
    match line.data.get? 1 with
    | none => .error .indexError
    | some c => if c = 'V' then headerStep st line else dataStep cos T st line

/-- The whole scanning loop over the file's lines; a raised exception
aborts the remainder of the loop. -/
def processLines (cos : ℚ → ℚ) (T : ℚ) : LoadState → List String → Except PyError LoadState
  | st, [] => .ok st
  | st, line :: rest =>
    match processLine cos T st line with
    | .error e => .error e
    | .ok st2 => processLines cos T st2 rest

/-- `T = (jde - 2451545) / 365250.0`. -/
def computeT (jde : ℚ) : ℚ := (jde - 2451545) / 365250

/-- Bucket sum `sums[v][d]` read from a loop state; the grid invariably
keeps its 3 × 6 shape, so the default value of this total read is never
exercised by `getPlanetPosition`. -/
def sumAt (st : LoadState) (v d : Nat) : ℚ :=
  (((st.sums.get? v).getD []).get? d).getD 0

/-- The returned triple of `getPlanetPosition` (source lines 92–99):
for each variable the polynomial
`sums[v][0] + sums[v][1]*T + sums[v][2]*T^2 + sums[v][3]*T^3 + sums[v][4]*T^4`
— note that the source sums only degrees 0–4 here. -/
def resultTriple (st : LoadState) (T : ℚ) : List ℚ :=
  [ sumAt st 0 0 + sumAt st 0 1 * T + sumAt st 0 2 * T ^ 2 +
      sumAt st 0 3 * T ^ 3 + sumAt st 0 4 * T ^ 4,
    sumAt st 1 0 + sumAt st 1 1 * T + sumAt st 1 2 * T ^ 2 +
      sumAt st 1 3 * T ^ 3 + sumAt st 1 4 * T ^ 4,
    sumAt st 2 0 + sumAt st 2 1 * T + sumAt st 2 2 * T ^ 2 +
      sumAt st 2 3 * T ^ 3 + sumAt st 2 4 * T ^ 4 ]

/-- `getPlanetPosition` over the lines of one planet's coefficient file:
compute `T`, scan all lines accumulating bucket sums, then evaluate the
three polynomials. -/
def getPlanetPosition (cos : ℚ → ℚ) (lines : List String) (jde : ℚ) :
    Except PyError (List ℚ) :=
  let T := computeT jde
  match processLines cos T initState lines with
  | .error e => .error e
  | .ok st => .ok (resultTriple st T)

/-! ### General lemmas about the embedded code -/

theorem string_length_eq_data (s : String) : s.length = s.data.length := rfl

theorem length_ne_zero_of_get1 (line : String)
    (c : Char) (hc : line.data.get? 1 = some c) : line.length ≠ 0 := by
  have h1 : 1 < line.data.length := (List.get?_eq_some.mp hc).1
  rw [string_length_eq_data]
  omega

theorem processLine_eq_headerStep (cos : ℚ → ℚ) (T : ℚ) (st : LoadState) (line : String)
    (hc : line.data.get? 1 = some 'V') :
    processLine cos T st line = headerStep st line := by
  rw [processLine, if_neg (length_ne_zero_of_get1 line 'V' hc), hc]
  simp

theorem processLine_eq_dataStep (cos : ℚ → ℚ) (T : ℚ) (st : LoadState) (line : String)
    (c : Char) (hc : line.data.get? 1 = some c) (hcV : c ≠ 'V') :
    processLine cos T st line = dataStep cos T st line := by
  rw [processLine, if_neg (length_ne_zero_of_get1 line c hc), hc]
  simp [hcV]

theorem processLine_oneChar (cos : ℚ → ℚ) (T : ℚ) (st : LoadState) (line : String)
    (h0 : line.length ≠ 0) (h1 : line.data.get? 1 = none) :
    processLine cos T st line = .error .indexError := by
  rw [processLine, if_neg h0, h1]

theorem processLines_append (cos : ℚ → ℚ) (T : ℚ) (st : LoadState) (xs ys : List String) :
    processLines cos T st (xs ++ ys) =
      match processLines cos T st xs with
      | .error e => .error e
      | .ok s => processLines cos T s ys := by
  induction xs generalizing st with
  | nil => rfl
  | cons x xs ih =>
    rw [List.cons_append, processLines, processLines]
    cases processLine cos T st x with
    | error e => rfl
    | ok st2 => exact ih st2

/-- The shape invariant of the bucket grid: 3 rows of 6 entries. -/
def GridShape (g : List (List ℚ)) : Prop :=
  g.length = 3 ∧ ∀ i r, g.get? i = some r → r.length = 6

theorem gridShape_init : GridShape initState.sums := by
  constructor
  · rfl
  · intro i r h
    match i, h with
    | 0, h => cases h; rfl
    | 1, h => cases h; rfl
    | 2, h => cases h; rfl

theorem headerStep_sums (st st2 : LoadState) (line : String)
    (h : headerStep st line = .ok st2) : st2.sums = st.sums := by
  rw [headerStep] at h
  repeat' split at h
  all_goals cases h
  all_goals rfl

theorem dataStep_shape (cos : ℚ → ℚ) (T : ℚ) (st st2 : LoadState) (line : String)
    (hg : GridShape st.sums) (h : dataStep cos T st line = .ok st2) :
    GridShape st2.sums := by
  rw [dataStep] at h
  cases hrow : pyGet st.sums st.currentVar with
  | none => simp only [hrow] at h; exact Except.noConfusion h
  | some row =>
  simp only [hrow] at h
  cases hold : pyGet row st.currentTerm with
  | none => simp only [hold] at h; exact Except.noConfusion h
  | some old =>
  simp only [hold] at h
  cases hq : computeTerm cos line T with
  | error e => simp only [hq] at h; exact Except.noConfusion h
  | ok q =>
  simp only [hq] at h
  cases hrow2 : pySet row st.currentTerm (old + q) with
  | none => simp only [hrow2] at h; exact Except.noConfusion h
  | some row2 =>
  simp only [hrow2] at h
  cases hsums2 : pySet st.sums st.currentVar row2 with
  | none => simp only [hsums2] at h; exact Except.noConfusion h
  | some sums2 =>
  simp only [hsums2] at h
  cases h
  simp only [pySet] at hrow2 hsums2
  rcases Option.map_eq_some'.mp hrow2 with ⟨j, hj, hrow2e⟩
  rcases Option.map_eq_some'.mp hsums2 with ⟨i, hi, hsums2e⟩
  rcases hg with ⟨hg3, hg6⟩
  have hrowlen : row.length = 6 := by
    rw [pyGet] at hrow
    rcases Option.bind_eq_some.mp hrow with ⟨i', hi', hget⟩
    exact hg6 i' row hget
  subst hrow2e
  rw [← hsums2e]
  constructor
  · simpa using hg3
  · intro k r hk
    rcases Nat.lt_or_ge i st.sums.length with hilt | hige
    · by_cases hki : k = i
      · subst hki
        rw [List.get?_set_eq_of_lt _ hilt] at hk
        cases hk
        simp only [List.length_set]
        exact hrowlen
      · rw [List.get?_set_ne _ _ (fun he => hki he.symm)] at hk
        exact hg6 k r hk
    · rw [List.set_eq_of_length_le hige] at hk
      exact hg6 k r hk

theorem processLine_shape (cos : ℚ → ℚ) (T : ℚ) (st st2 : LoadState) (line : String)
    (hg : GridShape st.sums) (h : processLine cos T st line = .ok st2) :
    GridShape st2.sums := by
  rw [processLine] at h
  split at h
  · cases h; exact hg
  · split at h
    · exact absurd h (by simp)
    · split at h
      · rw [headerStep_sums st st2 line h]; exact hg
      · exact dataStep_shape cos T st st2 line hg h

theorem processLines_shape (cos : ℚ → ℚ) (T : ℚ) (st st2 : LoadState) (lines : List String)
    (hg : GridShape st.sums) (h : processLines cos T st lines = .ok st2) :
    GridShape st2.sums := by
  induction lines generalizing st with
  | nil => rw [processLines] at h; cases h; exact hg
  | cons l ls ih =>
    rw [processLines] at h
    split at h
    · exact absurd h (by simp)
    · rename_i st1 h1
      exact ih st1 (processLine_shape cos T st st1 l hg h1) h

theorem pyGet_none_of_ge (l : List ℚ) (i : ℤ) (h : (l.length : ℤ) ≤ i) :
    pyGet l i = none := by
  rw [pyGet, pyIdx]
  rw [if_neg (by omega), if_neg (by omega)]
  rfl

/-! ### The evaluator with the table threaded as explicit mutable state

The loop of `getPlanetPosition` reads `indata[pI][i]` for each
`i in range(len(indata[pI]))` and never writes to the table.  To make
that observable, this variant threads the table through every iteration
and returns it next to the result. -/

def runTable (cos : ℚ → ℚ) (T : ℚ) :
    List String → LoadState → Nat → Nat → (Except PyError LoadState) × List String
  | table, st, _, 0 => (.ok st, table)
  | table, st, i, Nat.succ n =>
    match table.get? i with
    | none => (.error .indexError, table)
    | some line =>
      match processLine cos T st line with
      | .error e => (.error e, table)
      | .ok st2 => runTable cos T table st2 (i + 1) n

/-- `getPlanetPosition` with the table threaded: the pair of the computed
result and the table as it is left behind by the call. -/
def getPlanetPositionT (cos : ℚ → ℚ) (table : List String) (jde : ℚ) :
    (Except PyError (List ℚ)) × List String :=
  let T := computeT jde
  match runTable cos T table initState 0 table.length with
  | (.error e, tbl) => (.error e, tbl)
  | (.ok st, tbl) => (.ok (resultTriple st T), tbl)

theorem runTable_snd (cos : ℚ → ℚ) (T : ℚ) (table : List String) :
    ∀ (n : Nat) (st : LoadState) (i : Nat), (runTable cos T table st i n).2 = table := by
  intro n
  induction n with
  | zero => intro st i; rfl
  | succ n ih =>
    intro st i
    rw [runTable]
    cases table.get? i with
    | none => rfl
    | some line =>
      show (match processLine cos T st line with
        | Except.error e => ((Except.error e : Except PyError LoadState), table)
        | Except.ok st2 => runTable cos T table st2 (i + 1) n).2 = table
      cases processLine cos T st line with
      | error e => rfl
      | ok st2 => exact ih st2 (i + 1)

theorem getPlanetPositionT_snd (cos : ℚ → ℚ) (table : List String) (jde : ℚ) :
    (getPlanetPositionT cos table jde).2 = table := by
  rw [getPlanetPositionT]
  have h := runTable_snd cos (computeT jde) table table.length initState 0
  rcases hr : runTable cos (computeT jde) table initState 0 table.length with ⟨r, tbl⟩
  rw [hr] at h
  cases r with
  | error e => simpa using h
  | ok st => simpa using h

theorem runTable_fst (cos : ℚ → ℚ) (T : ℚ) (table : List String) :
    ∀ (n : Nat) (st : LoadState) (i : Nat), i + n ≤ table.length →
      (runTable cos T table st i n).1 =
        processLines cos T st ((table.drop i).take n) := by
  intro n
  induction n with
  | zero => intro st i _; rfl
  | succ n ih =>
    intro st i hin
    have hi : i < table.length := by omega
    have hdrop : table.drop i = table[i] :: table.drop (i + 1) :=
      List.drop_eq_getElem_cons hi
    have hget : table.get? i = some table[i] := by
      rw [List.get?_eq_getElem?, List.getElem?_eq_getElem hi]
    rw [runTable, hget, hdrop, List.take_succ_cons, processLines]
    show (match processLine cos T st table[i] with
      | Except.error e => ((Except.error e : Except PyError LoadState), table)
      | Except.ok st2 => runTable cos T table st2 (i + 1) n).1 = _
    cases processLine cos T st table[i] with
    | error e => rfl
    | ok st2 => exact ih st2 (i + 1) (by omega)

theorem getPlanetPositionT_fst (cos : ℚ → ℚ) (table : List String) (jde : ℚ) :
    (getPlanetPositionT cos table jde).1 = getPlanetPosition cos table jde := by
  rw [getPlanetPositionT, getPlanetPosition]
  have h := runTable_fst cos (computeT jde) table table.length initState 0 (by omega)
  rcases hr : runTable cos (computeT jde) table initState 0 table.length with ⟨r, tbl⟩
  rw [hr] at h
  simp only [List.drop_zero, List.take_length] at h
  rw [← h]
  cases r with
  | error e => rfl
  | ok st => rfl

/-! ### The result as the specification words it

For claim comparison: §4.2 of the spec states
`result[v] = Σ_{d=0}^{5} degree_sum[v][d] * T^d`, i.e. the degree-5
bucket participates in the polynomial. -/

/-- The coordinate triple as demanded by the spec: for each variable the
sum over all six degrees `0..5` of `degree_sum[v][d] * T^d`. -/
def specResultTriple (st : LoadState) (T : ℚ) : List ℚ :=
  [ sumAt st 0 0 + sumAt st 0 1 * T + sumAt st 0 2 * T ^ 2 +
      sumAt st 0 3 * T ^ 3 + sumAt st 0 4 * T ^ 4 + sumAt st 0 5 * T ^ 5,
    sumAt st 1 0 + sumAt st 1 1 * T + sumAt st 1 2 * T ^ 2 +
      sumAt st 1 3 * T ^ 3 + sumAt st 1 4 * T ^ 4 + sumAt st 1 5 * T ^ 5,
    sumAt st 2 0 + sumAt st 2 1 * T + sumAt st 2 2 * T ^ 2 +
      sumAt st 2 3 * T ^ 3 + sumAt st 2 4 * T ^ 4 + sumAt st 2 5 * T ^ 5 ]

/-- The evaluator as the specification words it: same loading loop, but
the returned polynomials include the degree-5 buckets. -/
def specEvaluate (cos : ℚ → ℚ) (lines : List String) (jde : ℚ) :
    Except PyError (List ℚ) :=
  let T := computeT jde
  match processLines cos T initState lines with
  | .error e => .error e
  | .ok st => .ok (specResultTriple st T)

/-! ### Concrete input lines used in the closed evaluations

`hdrVar1Deg3`/`hdrVar1Deg5`/`hdrVar1Deg6` follow the VSOP87 header
layout: the marker `V` at character index 1, the 1-based variable number
as token 5, and the degree digit at character index 4 of token 7. -/

def hdrVar1Deg3 : String := " VSOP87 VERSION C4 MERC VARIABLE 1 (XYZ) *T**3"

def hdrVar1Deg5 : String := " VSOP87 VERSION C4 MERC VARIABLE 1 (XYZ) *T**5"

def hdrVar1Deg6 : String := " VSOP87 VERSION C4 MERC VARIABLE 1 (XYZ) *T**6"

def dataLine1 : String := "1.0 0.0 0.0"

/-! ### Evaluation lemmas -/

theorem resultTriple_explicit
    (x00 x01 x02 x03 x04 x05 x10 x11 x12 x13 x14 x15
      x20 x21 x22 x23 x24 x25 : ℚ) (v t : ℤ) (T : ℚ) :
    resultTriple
        ⟨[[x00, x01, x02, x03, x04, x05], [x10, x11, x12, x13, x14, x15],
          [x20, x21, x22, x23, x24, x25]], v, t⟩ T =
      [ x00 + x01 * T + x02 * T ^ 2 + x03 * T ^ 3 + x04 * T ^ 4,
        x10 + x11 * T + x12 * T ^ 2 + x13 * T ^ 3 + x14 * T ^ 4,
        x20 + x21 * T + x22 * T ^ 2 + x23 * T ^ 3 + x24 * T ^ 4 ] := rfl

theorem specResultTriple_explicit
    (x00 x01 x02 x03 x04 x05 x10 x11 x12 x13 x14 x15
      x20 x21 x22 x23 x24 x25 : ℚ) (v t : ℤ) (T : ℚ) :
    specResultTriple
        ⟨[[x00, x01, x02, x03, x04, x05], [x10, x11, x12, x13, x14, x15],
          [x20, x21, x22, x23, x24, x25]], v, t⟩ T =
      [ x00 + x01 * T + x02 * T ^ 2 + x03 * T ^ 3 + x04 * T ^ 4 + x05 * T ^ 5,
        x10 + x11 * T + x12 * T ^ 2 + x13 * T ^ 3 + x14 * T ^ 4 + x15 * T ^ 5,
        x20 + x21 * T + x22 * T ^ 2 + x23 * T ^ 3 + x24 * T ^ 4 + x25 * T ^ 5 ] := rfl

theorem parseFloat_one : parseFloat "1.0" = some 1 := by
  have hp : parseFloatParts (stripWs "1.0".data) = some ⟨false, 10, 1, false, 0⟩ := rfl
  rw [parseFloat, hp]
  norm_num [ratOfParts]

theorem parseFloat_zero : parseFloat "0.0" = some 0 := by
  have hp : parseFloatParts (stripWs "0.0".data) = some ⟨false, 0, 1, false, 0⟩ := rfl
  rw [parseFloat, hp]
  norm_num [ratOfParts]

theorem computeTerm_eq (cos : ℚ → ℚ) (line : String) (s0 s1 s2 : String)
    (a b f T : ℚ) (hex : extractCoefficients line = [s0, s1, s2])
    (h0 : parseFloat s0 = some a) (h1 : parseFloat s1 = some b)
    (h2 : parseFloat s2 = some f) :
    computeTerm cos line T = .ok (a * cos (b + f * T)) := by
  simp only [computeTerm, hex, List.get?_cons_zero, List.get?_cons_succ, h0, h1, h2]

/-! ### The claims -/

/-- C9: an evaluate call leaves the table unchanged: for every table and
jde, the table returned next to the result of the table-threaded
evaluator equals the input table. -/
theorem c9_table_preserved (cos : ℚ → ℚ) (table : List String) (jde : ℚ) :
    (getPlanetPositionT cos table jde).2 = table :=
  getPlanetPositionT_snd cos table jde

/-- C8: evaluate is a deterministic pure function of (table, jde): the
table-threaded evaluator computes exactly the pure function of the table
and jde, and a second invocation on the table left behind by a first
invocation returns an identical output. -/
theorem c8_evaluate_deterministic (cos : ℚ → ℚ) (table : List String) (jde : ℚ) :
    (getPlanetPositionT cos table jde).1 = getPlanetPosition cos table jde
    ∧ (getPlanetPositionT cos ((getPlanetPositionT cos table jde).2) jde).1
        = (getPlanetPositionT cos table jde).1 := by
  refine ⟨getPlanetPositionT_fst cos table jde, ?_⟩
  rw [getPlanetPositionT_snd cos table jde]

/-- C3: contrary to the claim, a blank line as produced by `readlines()`
is the one-character string `"\n"`, for which the `len(line) == 0` guard
does not fire and `line[1]` raises `IndexError`; only a zero-length
string is skipped.  The evaluation on `["\n"]` aborts with `IndexError`,
while the same input with the blank line removed (and also with a
zero-length line instead) evaluates to `[0, 0, 0]`. -/
theorem c3_blank_line_index_error :
    getPlanetPosition (fun _ => 1) ["\n"] 2451545 = .error .indexError
    ∧ getPlanetPosition (fun _ => 1) [] 2451545 = .ok [0, 0, 0]
    ∧ getPlanetPosition (fun _ => 1) [""] 2451545 = .ok [0, 0, 0] := by
  refine ⟨rfl, ?_, ?_⟩
  · have h : processLines (fun _ => (1 : ℚ)) (computeT 2451545) initState [] =
        .ok ⟨[[0, 0, 0, 0, 0, 0], [0, 0, 0, 0, 0, 0], [0, 0, 0, 0, 0, 0]], 0, 0⟩ := rfl
    simp only [getPlanetPosition, h, resultTriple_explicit]
    norm_num
  · have h : processLines (fun _ => (1 : ℚ)) (computeT 2451545) initState [""] =
        .ok ⟨[[0, 0, 0, 0, 0, 0], [0, 0, 0, 0, 0, 0], [0, 0, 0, 0, 0, 0]], 0, 0⟩ := rfl
    simp only [getPlanetPosition, h, resultTriple_explicit]
    norm_num

/-- C5: at the epoch `jde = 2451545.0` the time argument is exactly
`T = 0`, and the returned triple consists of the degree-0 bucket sums of
the state reached by the scanning loop (all higher-degree contributions
vanish). -/
theorem c5_epoch_degree0 (cos : ℚ → ℚ) (lines : List String) (st : LoadState)
    (h : processLines cos (computeT 2451545) initState lines = .ok st) :
    computeT 2451545 = 0
    ∧ getPlanetPosition cos lines 2451545 =
        .ok [sumAt st 0 0, sumAt st 1 0, sumAt st 2 0] := by
  have hT : computeT 2451545 = 0 := by norm_num [computeT]
  refine ⟨hT, ?_⟩
  simp only [getPlanetPosition, h]
  rw [hT]
  simp only [resultTriple]
  norm_num

/-- Witness for C5 at the empty line list. -/
theorem c5_epoch_degree0_witness :
    computeT 2451545 = 0
    ∧ getPlanetPosition (fun q => q + 1) [] 2451545 = .ok [0, 0, 0] := by
  have h := c5_epoch_degree0 (fun q => q + 1) [] initState rfl
  exact ⟨h.1, h.2⟩

/-- C2 counterexample: a data line with no preceding header does not make
the load fail; it is silently accumulated into the default bucket
(variable 0, degree 0) and evaluation succeeds. -/
theorem c2_data_before_header_succeeds :
    getPlanetPosition (fun _ => 1) ["0 1.0 0.0 0.0"] 2451545 = .ok [1, 0, 0] := by
  have hproc : processLines (fun _ => (1 : ℚ)) (computeT 2451545) initState
        ["0 1.0 0.0 0.0"] =
      .ok ⟨[[0 + ratOfParts ⟨false, 10, 1, false, 0⟩ * 1, 0, 0, 0, 0, 0],
            [0, 0, 0, 0, 0, 0], [0, 0, 0, 0, 0, 0]], 0, 0⟩ := rfl
  simp only [getPlanetPosition, hproc, resultTriple_explicit]
  norm_num [ratOfParts, computeT]

/-- C2 (amended): a well-formed data line processed in the initial state
— i.e. before any header has been seen — raises no error and adds its
term to the bucket (variable 0, degree 0), since the initialized state
acts as variable 0, degree 0. -/
theorem c2_default_bucket_accumulation (cos : ℚ → ℚ) (T : ℚ) (line : String)
    (c : Char) (q : ℚ) (hc : line.data.get? 1 = some c) (hcV : c ≠ 'V')
    (hq : computeTerm cos line T = .ok q) :
    processLine cos T initState line =
      .ok ⟨[[0 + q, 0, 0, 0, 0, 0], [0, 0, 0, 0, 0, 0], [0, 0, 0, 0, 0, 0]], 0, 0⟩ := by
  rw [processLine_eq_dataStep cos T initState line c hc hcV, dataStep, hq]
  rfl

/-- Witness for C2: the concrete data line `"0 1.0 0.0 0.0"` at `T = 0`. -/
theorem c2_default_bucket_accumulation_witness :
    processLine (fun _ => 1) 0 initState "0 1.0 0.0 0.0" =
      .ok ⟨[[0 + ratOfParts ⟨false, 10, 1, false, 0⟩ * 1, 0, 0, 0, 0, 0],
            [0, 0, 0, 0, 0, 0], [0, 0, 0, 0, 0, 0]], 0, 0⟩ :=
  c2_default_bucket_accumulation (fun _ => 1) 0 "0 1.0 0.0 0.0" ' '
    (ratOfParts ⟨false, 10, 1, false, 0⟩ * 1) rfl (by decide) rfl

/-- C4 counterexample: an input whose only line is a header declaring
degree 6 loads and evaluates without any error, because the out-of-range
degree only matters when a subsequent data line is accumulated. -/
theorem c4_header_only_load_succeeds :
    getPlanetPosition (fun _ => 1) [hdrVar1Deg6] 2451545 = .ok [0, 0, 0] := by
  have hproc : processLines (fun _ => (1 : ℚ)) (computeT 2451545) initState [hdrVar1Deg6] =
      .ok ⟨[[0, 0, 0, 0, 0, 0], [0, 0, 0, 0, 0, 0], [0, 0, 0, 0, 0, 0]], 0, 6⟩ := rfl
  simp only [getPlanetPosition, hproc, resultTriple_explicit]
  norm_num

/-- A data-line step taken while `currentTerm` is at least 6 fails with an
index error: the bucket lookup `sums[currentVar][currentTerm]` is out of
range whichever row is selected. -/
theorem dataStep_degree_oob (cos : ℚ → ℚ) (T : ℚ) (st : LoadState) (line : String)
    (hg : GridShape st.sums) (hd6 : 6 ≤ st.currentTerm) :
    dataStep cos T st line = .error .indexError := by
  rw [dataStep]
  cases hrow : pyGet st.sums st.currentVar with
  | none => simp only [hrow]
  | some row =>
    have hrl : row.length = 6 := by
      rw [pyGet] at hrow
      rcases Option.bind_eq_some.mp hrow with ⟨k, hk, hget⟩
      exact hg.2 k row hget
    have hnone : pyGet row st.currentTerm = none := by
      apply pyGet_none_of_ge
      rw [hrl]
      exact_mod_cast hd6
    simp only [hrow, hnone]

/-- C4 (amended): a header declaring a degree greater than 5 makes the
load fail with an index-out-of-range error as soon as a data line is
processed under it — before any term is accumulated outside the degree
buckets — whatever the prefix successfully processed before the header
and whatever follows the data line. -/
theorem c4_degree_out_of_range_data_fails (cos : ℚ → ℚ) (jde : ℚ)
    (pre : List String) (s : LoadState) (hdr dat : String) (suf : List String)
    (t5 t7 : String) (c5 c7 cd : Char)
    (hpre : processLines cos (computeT jde) initState pre = .ok s)
    (hhdr : hdr.data.get? 1 = some 'V')
    (h5 : (pySplit hdr).get? 5 = some t5) (h50 : t5.data.get? 0 = some c5)
    (h5d : c5.isDigit = true)
    (h7 : (pySplit hdr).get? 7 = some t7) (h74 : t7.data.get? 4 = some c7)
    (h7d : c7.isDigit = true) (hbig : 6 ≤ digitVal c7)
    (hd : dat.data.get? 1 = some cd) (hdV : cd ≠ 'V') :
    getPlanetPosition cos (pre ++ hdr :: dat :: suf) jde = .error .indexError := by
  have hshape : GridShape s.sums :=
    processLines_shape cos (computeT jde) initState s pre gridShape_init hpre
  have hhs : headerStep s hdr =
      .ok ⟨s.sums, (digitVal c5 : ℤ) - 1, (digitVal c7 : ℤ)⟩ := by
    simp only [headerStep, h5, h50, h7, h74, parseIntChar, h5d, h7d, if_true]
  have hds : dataStep cos (computeT jde)
        ⟨s.sums, (digitVal c5 : ℤ) - 1, (digitVal c7 : ℤ)⟩ dat = .error .indexError := by
    apply dataStep_degree_oob
    · exact hshape
    · show (6 : ℤ) ≤ (digitVal c7 : ℤ)
      exact_mod_cast hbig
  have hrun : processLines cos (computeT jde) initState (pre ++ hdr :: dat :: suf) =
      .error .indexError := by
    rw [processLines_append]
    simp only [hpre]
    rw [processLines, processLine_eq_headerStep cos (computeT jde) s hdr hhdr, hhs]
    show processLines cos (computeT jde)
      ⟨s.sums, (digitVal c5 : ℤ) - 1, (digitVal c7 : ℤ)⟩ (dat :: suf) = _
    rw [processLines,
      processLine_eq_dataStep cos (computeT jde)
        ⟨s.sums, (digitVal c5 : ℤ) - 1, (digitVal c7 : ℤ)⟩ dat cd hd hdV, hds]
  simp only [getPlanetPosition, hrun]

/-- Witness for C4: the degree-6 header followed by one data line. -/
theorem c4_degree_out_of_range_data_fails_witness :
    getPlanetPosition (fun _ => 1) ([] ++ hdrVar1Deg6 :: dataLine1 :: []) 2451545
      = .error .indexError :=
  c4_degree_out_of_range_data_fails (fun _ => 1) 2451545 [] initState hdrVar1Deg6
    dataLine1 [] "1" "*T**6" '1' '6' '.' rfl (by decide) (by decide) (by decide)
    (by decide) (by decide) (by decide) (by decide) (by decide) (by decide) (by decide)

/-- C6: a table of one well-formed header declaring variable 1 (index 0)
and degree 3 followed by one data line whose last three tokens are
`"1.0 0.0 0.0"` puts `1·cos(0 + 0·T) = 1` into bucket (0, 3) for every
jde and leaves every other bucket zero; and in general a data line whose
coefficients parse as (A, B, C) contributes `A·cos(B + C·T)`. -/
theorem c6_header_degree_roundtrip (cos : ℚ → ℚ) (jde : ℚ) (hdr dat : String)
    (t5 t7 : String) (cd : Char) (hcos : cos 0 = 1)
    (hhdr : hdr.data.get? 1 = some 'V')
    (h5 : (pySplit hdr).get? 5 = some t5) (h50 : t5.data.get? 0 = some '1')
    (h7 : (pySplit hdr).get? 7 = some t7) (h74 : t7.data.get? 4 = some '3')
    (hd : dat.data.get? 1 = some cd) (hdV : cd ≠ 'V')
    (hex : extractCoefficients dat = ["1.0", "0.0", "0.0"]) :
    (processLines cos (computeT jde) initState [hdr, dat]).map LoadState.sums
      = .ok [[0, 0, 0, 1, 0, 0], [0, 0, 0, 0, 0, 0], [0, 0, 0, 0, 0, 0]]
    ∧ ∀ (line s0 s1 s2 : String) (a b f T : ℚ),
        extractCoefficients line = [s0, s1, s2] → parseFloat s0 = some a →
        parseFloat s1 = some b → parseFloat s2 = some f →
        computeTerm cos line T = .ok (a * cos (b + f * T)) := by
  refine ⟨?_, fun line s0 s1 s2 a b f T hex2 h0 h1 h2 =>
    computeTerm_eq cos line s0 s1 s2 a b f T hex2 h0 h1 h2⟩
  have p1 : parseIntChar '1' = some 1 := by decide
  have p3 : parseIntChar '3' = some 3 := by decide
  have hhs : headerStep initState hdr = .ok ⟨initState.sums, 0, 3⟩ := by
    simp only [headerStep, h5, h50, h7, h74, p1, p3]
    rfl
  have hct : computeTerm cos dat (computeT jde) = .ok (1 * cos (0 + 0 * computeT jde)) :=
    computeTerm_eq cos dat "1.0" "0.0" "0.0" 1 0 0 (computeT jde) hex
      parseFloat_one parseFloat_zero parseFloat_zero
  have hds : dataStep cos (computeT jde) ⟨initState.sums, 0, 3⟩ dat =
      .ok ⟨[[0, 0, 0, 0 + 1 * cos (0 + 0 * computeT jde), 0, 0],
            [0, 0, 0, 0, 0, 0], [0, 0, 0, 0, 0, 0]], 0, 3⟩ := by
    rw [dataStep, hct]
    rfl
  have hrun : processLines cos (computeT jde) initState [hdr, dat] =
      .ok ⟨[[0, 0, 0, 0 + 1 * cos (0 + 0 * computeT jde), 0, 0],
            [0, 0, 0, 0, 0, 0], [0, 0, 0, 0, 0, 0]], 0, 3⟩ := by
    rw [processLines, processLine_eq_headerStep cos (computeT jde) initState hdr hhdr, hhs]
    show processLines cos (computeT jde) ⟨initState.sums, 0, 3⟩ [dat] = _
    rw [processLines,
      processLine_eq_dataStep cos (computeT jde) ⟨initState.sums, 0, 3⟩ dat cd hd hdV, hds]
    rfl
  rw [hrun]
  have harg : (0 : ℚ) + 0 * computeT jde = 0 := by ring
  rw [show Except.map LoadState.sums
      (Except.ok (⟨[[0, 0, 0, 0 + 1 * cos (0 + 0 * computeT jde), 0, 0],
        [0, 0, 0, 0, 0, 0], [0, 0, 0, 0, 0, 0]], 0, 3⟩ : LoadState)) =
      Except.ok [[0, 0, 0, 0 + 1 * cos (0 + 0 * computeT jde), 0, 0],
        [0, 0, 0, 0, 0, 0], [0, 0, 0, 0, 0, 0]] from rfl, harg, hcos]
  norm_num

/-- Witness for C6 with the concrete header and data line at the epoch. -/
theorem c6_header_degree_roundtrip_witness :
    (processLines (fun _ => 1) (computeT 2451545) initState [hdrVar1Deg3, dataLine1]).map
        LoadState.sums
      = .ok [[0, 0, 0, 1, 0, 0], [0, 0, 0, 0, 0, 0], [0, 0, 0, 0, 0, 0]]
    ∧ computeTerm (fun _ => 1) dataLine1 5 = .ok (1 * 1) := by
  have h := c6_header_degree_roundtrip (fun _ => 1) 2451545 hdrVar1Deg3 dataLine1
    "1" "*T**3" '.' rfl (by decide) (by decide) (by decide) (by decide) (by decide)
    (by decide) (by decide) (by decide)
  exact ⟨h.1, h.2 dataLine1 "1.0" "0.0" "0.0" 1 0 0 5 (by decide)
    parseFloat_one parseFloat_zero parseFloat_zero⟩

/-- C10 counterexample: the non-empty one-character line `"x"` has no
character at index 1; it is neither consumed as a header nor treated as a
data line — the classification test itself raises `IndexError`, while
data-line treatment of the same line would have raised `ValueError` from
`float("x")`. -/
theorem c10_one_char_line_not_data :
    processLine (fun _ => 1) 0 initState "x" = .error .indexError
    ∧ dataStep (fun _ => 1) 0 initState "x" = .error .valueError :=
  ⟨rfl, rfl⟩

/-- C10 (amended): among lines with a second character, a line is
consumed by the header branch exactly when the character at index 1 is
`V` — and, even for a data-like line so consumed, no term is added to
any bucket — while every other such line is handed to the data branch
regardless of its remaining content; a non-empty line without a second
character fails with an index error at the classification test. -/
theorem c10_classification_amended (cos : ℚ → ℚ) (T : ℚ) (st : LoadState) (line : String) :
    (line.data.get? 1 = some 'V' →
      processLine cos T st line = headerStep st line
      ∧ ∀ st2, headerStep st line = .ok st2 → st2.sums = st.sums)
    ∧ (∀ c, line.data.get? 1 = some c → c ≠ 'V' →
        processLine cos T st line = dataStep cos T st line)
    ∧ (line.length ≠ 0 → line.data.get? 1 = none →
        processLine cos T st line = .error .indexError) :=
  ⟨fun h => ⟨processLine_eq_headerStep cos T st line h,
      fun st2 h2 => headerStep_sums st st2 line h2⟩,
    fun c hc hcV => processLine_eq_dataStep cos T st line c hc hcV,
    fun h0 h1 => processLine_oneChar cos T st line h0 h1⟩

/-- Witness for C10 on a concrete header line, a concrete data line and a
concrete one-character line. -/
theorem c10_classification_witness :
    processLine (fun _ => 1) 0 initState hdrVar1Deg3 = headerStep initState hdrVar1Deg3
    ∧ processLine (fun _ => 1) 0 initState dataLine1 =
        dataStep (fun _ => 1) 0 initState dataLine1
    ∧ processLine (fun _ => 1) 0 initState "x" = .error .indexError :=
  ⟨((c10_classification_amended (fun _ => 1) 0 initState hdrVar1Deg3).1 (by decide)).1,
    (c10_classification_amended (fun _ => 1) 0 initState dataLine1).2.1 '.' (by decide)
      (by decide),
    (c10_classification_amended (fun _ => 1) 0 initState "x").2.2 (by decide) (by decide)⟩

/-- C1: the claimed degree range is wrong for the code: on a table whose
only term sits in the degree-5 bucket of variable 0, evaluated at
`jde = 2816795` (so `T = 1`), the code returns `v0 = 0` because the
returned polynomial stops at degree 4, while the sum over all six
degrees demanded by the specification gives `v0 = 1`. -/
theorem c1_code_omits_degree5 :
    getPlanetPosition (fun _ => 1) [hdrVar1Deg5, dataLine1] 2816795 = .ok [0, 0, 0]
    ∧ specEvaluate (fun _ => 1) [hdrVar1Deg5, dataLine1] 2816795 = .ok [1, 0, 0] := by
  have hproc : processLines (fun _ => (1 : ℚ)) (computeT 2816795) initState
        [hdrVar1Deg5, dataLine1] =
      .ok ⟨[[0, 0, 0, 0, 0, 0 + ratOfParts ⟨false, 10, 1, false, 0⟩ * 1],
            [0, 0, 0, 0, 0, 0], [0, 0, 0, 0, 0, 0]], 0, 5⟩ := rfl
  constructor
  · simp only [getPlanetPosition, hproc, resultTriple_explicit]
    norm_num [computeT]
  · simp only [specEvaluate, hproc, specResultTriple_explicit]
    norm_num [computeT, ratOfParts]
